import Mathlib

/-!
# Verification of `etframes`: range frames and dot-dash plots

A shallow embedding of `etframes.py`, which decorates matplotlib axes with
Tufte-style range frames and dot-dash plots.  Numeric values (tick positions,
data bounds, transform coefficients) are modelled as rationals.  The mutable
matplotlib `Axes` object becomes an explicit `AxesState` record; each Python
function that mutates the axes becomes a function from `AxesState` to
`AxesState` (wrapped in `Option` where the Python code can raise).

Python-level failure modes that the claims mention are embedded explicitly:
* `numpy.ndarray.min`/`.max` on an empty selection raises `ValueError`; the
  embedding returns `none` there.
* comparing a float against a plain Python list raises `TypeError`; the
  argument type `TickArg` distinguishes a broadcastable array
  (`TickArg.array`) from a plain list (`TickArg.plainList`), and
  `adjust_ticks_to_bounds` maps the latter to the caught-`TypeError` branch.
-/

namespace Etframes

/-- The default value of the `pad` keyword argument of
`adjust_ticks_to_bounds` (`1e-5` in the source). -/
def defaultPad : ℚ := 1 / 100000

/-- A separable affine 2-D transform, the shape of the matplotlib transforms
(`transData`, `transAxes`) consumed by this code:
`(x, y) ↦ (xScale*x + xOff, yScale*y + yOff)`. -/
structure Affine2 where
  xScale : ℚ
  xOff : ℚ
  yScale : ℚ
  yOff : ℚ
deriving DecidableEq, Repr

/-- `Transform.transform_point`: apply the transform to a point. -/
def Affine2.apply (t : Affine2) (p : ℚ × ℚ) : ℚ × ℚ :=
  (t.xScale * p.1 + t.xOff, t.yScale * p.2 + t.yOff)

/-- `Transform.inverted()`.  (ℚ-division by zero yields the junk value 0,
matching a degenerate transform; the transforms used here are invertible.) -/
def Affine2.inverted (t : Affine2) : Affine2 :=
  ⟨1 / t.xScale, -(t.xOff / t.xScale), 1 / t.yScale, -(t.yOff / t.yScale)⟩

/-- Composition `a + b` of matplotlib transforms: apply `a`, then `b`. -/
def Affine2.comp (a b : Affine2) : Affine2 :=
  ⟨b.xScale * a.xScale, b.xScale * a.xOff + b.xOff,
   b.yScale * a.yScale, b.yScale * a.yOff + b.yOff⟩

/-- A tick locator attached to an axis.  `fixed ts` is matplotlib's
`FixedLocator(ts)` (also what `Axes.set_xticks`/`set_yticks` install);
`generic id ts` stands for any other locator currently producing the tick
positions `ts` (e.g. the default `AutoLocator`). -/
inductive Locator where
  | fixed (ticks : List ℚ)
  | generic (id : Nat) (ticks : List ℚ)
deriving DecidableEq, Repr

/-- The tick positions a locator currently produces (what
`Axes.get_xticks`/`get_yticks` report). -/
def Locator.ticks : Locator → List ℚ
  | .fixed ts => ts
  | .generic _ ts => ts

/-- Which sides of the axes the x-axis draws its ticks on
(`XAxis.set_ticks_position`). -/
inductive XTickPos where
  | bottom
  | top
  | both
deriving DecidableEq, Repr

/-- Which sides of the axes the y-axis draws its ticks on
(`YAxis.set_ticks_position`). -/
inductive YTickPos where
  | left
  | right
  | both
deriving DecidableEq, Repr

/-- The tick direction set by `Axes.tick_params(direction=...)`. -/
inductive TickDir where
  | out
  | inward
deriving DecidableEq, Repr

/-- `RangeFrameArtist`: the drawable object added by `add_range_frame`.
`xbounds`/`ybounds` are data bounds as fractions of the axes size. -/
structure RangeFrameArtist where
  color : String
  linewidth : ℚ
  xbounds : ℚ × ℚ
  ybounds : ℚ × ℚ
deriving DecidableEq, Repr

/-- The matplotlib `LineCollection` as configured by `make_range_frame`:
the constructor arguments plus the state set by `set_transform` and
`set_zorder`. -/
structure LineCollection where
  segments : List (List (ℚ × ℚ))
  linewidths : List ℚ
  colors : List String
  transform : Affine2
  zorder : ℤ
deriving DecidableEq, Repr

/-- The slice of matplotlib `Axes` state that `etframes` reads or writes:
tick lists and locators, frame flag, tick sides, tick styling flags, data
limits (`dataLim.intervalx/y`), display limits (`get_xlim`/`get_ylim`), the
two transforms, and the artist list (`add_artist`). -/
structure AxesState where
  xMajorTicks : List ℚ
  yMajorTicks : List ℚ
  xMinorLoc : Locator
  yMinorLoc : Locator
  frameOn : Bool
  xTickPos : XTickPos
  yTickPos : YTickPos
  tickDir : TickDir
  xMinorStyled : Bool
  yMinorStyled : Bool
  xMinorFmtIsMajor : Bool
  yMinorFmtIsMajor : Bool
  dataLimX : ℚ × ℚ
  dataLimY : ℚ × ℚ
  xlim : ℚ × ℚ
  ylim : ℚ × ℚ
  transData : Affine2
  transAxes : Affine2
  artists : List RangeFrameArtist
deriving DecidableEq, Repr

/-- `cleanframe_and_ticks`: turn the frame off, show ticks only on the
bottom and left sides. -/
def cleanframe_and_ticks (axes : AxesState) : AxesState :=
  { axes with frameOn := false, xTickPos := .bottom, yTickPos := .left }

/-- The minor-ticks argument of `adjust_ticks_to_bounds`.  A numpy array
supports the broadcast comparison against the bounds; a plain Python list
makes that comparison raise `TypeError` (caught in the source). -/
inductive TickArg where
  | array (ticks : List ℚ)
  | plainList (ticks : List ℚ)
deriving DecidableEq, Repr

/-- The element-wise selection
`(bounds[0] - pad <= t) & (bounds[1] + pad >= t)`. -/
def inboundSel (bounds : ℚ × ℚ) (pad t : ℚ) : Bool :=
  decide (bounds.1 - pad ≤ t) && decide (bounds.2 + pad ≥ t)

/-- The `show_data_min` branch of `adjust_ticks_to_bounds`: `none` models the
`ValueError` raised by `inbound_ticks.min()` on an empty selection. -/
def boundaryLow (show_data_min : Bool) (b0 pad : ℚ) (inbound_ticks : List ℚ) :
    Option (List ℚ) :=
  match show_data_min, inbound_ticks.min? with
  | false, _ => some []
  | true, none => none
  | true, some m => some (if b0 + pad < m then [b0] else [])

/-- The `show_data_max` branch of `adjust_ticks_to_bounds`: `none` models the
`ValueError` raised by `inbound_ticks.max()` on an empty selection. -/
def boundaryHigh (show_data_max : Bool) (b1 pad : ℚ) (inbound_ticks : List ℚ) :
    Option (List ℚ) :=
  match show_data_max, inbound_ticks.max? with
  | false, _ => some []
  | true, none => none
  | true, some m => some (if b1 - pad > m then [b1] else [])

/-- The `try`/`except TypeError` block of `adjust_ticks_to_bounds`: broadcast
selection over an array of minor ticks; the `TypeError` from comparing the
bounds against a plain Python list is caught and yields `[]`. -/
def minorInbound (minor_ticks : TickArg) (bounds : ℚ × ℚ) (pad : ℚ) :
    List ℚ :=
  match minor_ticks with
  | .array l => l.filter (inboundSel bounds pad)
  | .plainList _ => []

/-- `adjust_ticks_to_bounds(ticks, minor_ticks, bounds, pad, show_data_min,
show_data_max)`: selects the major and minor ticks inside the padded bounds
interval and computes the synthetic boundary ticks.  Returns
`some (inbound_ticks, outbound_ticks, inbound_minor_ticks)`, or `none` when
the Python code raises. -/
def adjust_ticks_to_bounds (ticks : List ℚ) (minor_ticks : TickArg)
    (bounds : ℚ × ℚ) (pad : ℚ) (show_data_min show_data_max : Bool) :
    Option (List ℚ × List ℚ × List ℚ) :=
  let inbound_ticks := ticks.filter (inboundSel bounds pad)
  let inbound_minor_ticks := minorInbound minor_ticks bounds pad
  match boundaryLow show_data_min bounds.1 pad inbound_ticks,
        boundaryHigh show_data_max bounds.2 pad inbound_ticks with
  | some lo, some hi => some (inbound_ticks, lo ++ hi, inbound_minor_ticks)
  | _, _ => none

/-- Which axis a per-axis operation targets. -/
inductive AxisName where
  | x
  | y
deriving DecidableEq, Repr

/-- `set_tick_for_data_bounds`: style the given axis's minor ticks like major
ones (modelled by the `MinorStyled` flag) and set both axes' minor formatter
to their major formatter (the `MinorFmtIsMajor` flags). -/
def set_tick_for_data_bounds (axes : AxesState) (axis_name : AxisName) :
    AxesState :=
  let axes :=
    match axis_name with
    | .x => { axes with xMinorStyled := true }
    | .y => { axes with yMinorStyled := true }
  { axes with xMinorFmtIsMajor := true, yMinorFmtIsMajor := true }

/-- `add_range_ticks`: adjust both axes' major/minor ticks to the given
bounds.  `none` models an uncaught `ValueError` from
`adjust_ticks_to_bounds`. -/
def add_range_ticks (axes0 : AxesState) (xbounds ybounds : ℚ × ℚ)
    (show_x_min show_x_max show_y_min show_y_max : Bool) : Option AxesState :=
  let axes := { axes0 with tickDir := .out }
  match adjust_ticks_to_bounds axes.xMajorTicks
          (.array axes.xMinorLoc.ticks) xbounds defaultPad
          show_x_min show_x_max,
        adjust_ticks_to_bounds axes.yMajorTicks
          (.array axes.yMinorLoc.ticks) ybounds defaultPad
          show_y_min show_y_max with
  | some (xticks, xboundticks, xminorticks),
    some (yticks, yboundticks, yminorticks) =>
    let axes := { axes with xMajorTicks := xticks, yMajorTicks := yticks }
    let axes :=
      if show_x_min || show_x_max then
        let axes := set_tick_for_data_bounds axes .x
        { axes with xMinorLoc := .fixed xboundticks }
      else
        { axes with xMinorLoc := .fixed xminorticks }
    let axes :=
      if show_y_min || show_y_max then
        let axes := set_tick_for_data_bounds axes .y
        { axes with yMinorLoc := .fixed yboundticks }
      else
        { axes with yMinorLoc := .fixed yminorticks }
    some axes
  | _, _ => none

/-- `RangeFrameArtist.make_range_frame`: build the `LineCollection` holding
the two frame segments.  `transAxes` is `self.axes.transAxes`, the host
axes' normalized coordinate transform. -/
def RangeFrameArtist.make_range_frame (self : RangeFrameArtist)
    (transAxes : Affine2) : LineCollection :=
  let xline := [(self.xbounds.1, (0 : ℚ)), (self.xbounds.2, (0 : ℚ))]
  let yline := [((0 : ℚ), self.ybounds.1), ((0 : ℚ), self.ybounds.2)]
  { segments := [xline, yline]
    linewidths := [self.linewidth]
    colors := [self.color]
    transform := transAxes
    zorder := 10 }

/-- `axis_data_bounds(user_bounds, axis_data_bounds, axis_display_limits)`:
take the user bounds when given (completing `None` components from the data
bounds), else the data bounds, then clamp the result into the display
limits.  As in the source, the second parameter shadows the function's own
name. -/
def axis_data_bounds (user_bounds : Option (Option ℚ × Option ℚ))
    (axis_data_bounds : ℚ × ℚ)
    (axis_display_limits : Option ℚ × Option ℚ) : ℚ × ℚ :=
  let (vmin, vmax) :=
    match user_bounds with
    | none => axis_data_bounds
    | some (uvmin, uvmax) =>
      (uvmin.getD axis_data_bounds.1, uvmax.getD axis_data_bounds.2)
  let (axis_vmin, axis_vmax) := axis_display_limits
  let vmin := match axis_vmin with | some a => max vmin a | none => vmin
  let vmax := match axis_vmax with | some a => min vmax a | none => vmax
  (vmin, vmax)

/-- `axes_data_bound(ax, xbounds, ybounds)`: per-axis data bounds of an
`Axes`, from `ax.dataLim` and the display limits `ax.get_xlim()` /
`ax.get_ylim()` (matplotlib display limits are always numbers, hence
`some`). -/
def axes_data_bound (ax : AxesState)
    (xbounds ybounds : Option (Option ℚ × Option ℚ)) : ℚ × ℚ × ℚ × ℚ :=
  let (xmin, xmax) :=
    axis_data_bounds xbounds ax.dataLimX (some ax.xlim.1, some ax.xlim.2)
  let (ymin, ymax) :=
    axis_data_bounds ybounds ax.dataLimY (some ax.ylim.1, some ax.ylim.2)
  (xmin, xmax, ymin, ymax)

/-- `add_range_frame`: compute the data bounds, transform them from data to
axes coordinates, add the `RangeFrameArtist`, clean the frame, and adjust
the ticks.  `none` models an uncaught `ValueError` from tick adjustment. -/
def add_range_frame (axes : AxesState) (color : String) (linewidth : ℚ)
    (xbounds ybounds : Option (Option ℚ × Option ℚ))
    (show_x_min show_x_max show_y_min show_y_max : Bool) : Option AxesState :=
  let (xmin, xmax, ymin, ymax) := axes_data_bound axes xbounds ybounds
  let trans := Affine2.comp axes.transData axes.transAxes.inverted
  let (frame_xmin, frame_ymin) := trans.apply (xmin, ymin)
  let (frame_xmax, frame_ymax) := trans.apply (xmax, ymax)
  let axes :=
    { axes with artists := axes.artists ++
        [{ color := color, linewidth := linewidth,
           xbounds := (frame_xmin, frame_xmax),
           ybounds := (frame_ymin, frame_ymax) }] }
  let axes := cleanframe_and_ticks axes
  add_range_ticks axes (xmin, xmax) (ymin, ymax)
    show_x_min show_x_max show_y_min show_y_max

/-- `add_dot_dash_plot`: install fixed minor-tick locators at the given data
coordinates and clean the frame. -/
def add_dot_dash_plot (axes : AxesState) (xs ys : Option (List ℚ)) :
    AxesState :=
  let axes :=
    match xs with
    | some l => { axes with xMinorLoc := .fixed l }
    | none => axes
  let axes :=
    match ys with
    | some l => { axes with yMinorLoc := .fixed l }
    | none => axes
  cleanframe_and_ticks axes

end Etframes

namespace Etframes

/-! ## Concrete test fixtures -/

/-- A concrete axes whose display limits `(2, 8)` clip the x data limits
`(0, 10)`; both transforms are the identity. -/
def axesClipped : AxesState where
  xMajorTicks := [5]
  yMajorTicks := [1/2]
  xMinorLoc := .generic 0 []
  yMinorLoc := .generic 0 []
  frameOn := true
  xTickPos := .both
  yTickPos := .both
  tickDir := .inward
  xMinorStyled := false
  yMinorStyled := false
  xMinorFmtIsMajor := false
  yMinorFmtIsMajor := false
  dataLimX := (0, 10)
  dataLimY := (0, 1)
  xlim := (2, 8)
  ylim := (0, 1)
  transData := ⟨1, 0, 1, 0⟩
  transAxes := ⟨1, 0, 1, 0⟩
  artists := []

/-- A concrete axes with ticks drawn on the top and right sides and the
frame on. -/
def axesTopTicks : AxesState where
  xMajorTicks := [0, 1]
  yMajorTicks := [0, 1]
  xMinorLoc := .generic 1 [1/2]
  yMinorLoc := .generic 2 [1/4]
  frameOn := true
  xTickPos := .top
  yTickPos := .right
  tickDir := .inward
  xMinorStyled := false
  yMinorStyled := false
  xMinorFmtIsMajor := false
  yMinorFmtIsMajor := false
  dataLimX := (0, 1)
  dataLimY := (0, 1)
  xlim := (0, 1)
  ylim := (0, 1)
  transData := ⟨1, 0, 1, 0⟩
  transAxes := ⟨1, 0, 1, 0⟩
  artists := []

/-- The state `add_range_ticks` produces on `axesClipped` with bounds
`(2, 8)`/`(0, 1)` and all show flags set. -/
def axesClippedTicked : AxesState :=
  { axesClipped with
    xMajorTicks := [5]
    yMajorTicks := [1/2]
    xMinorLoc := .fixed [2, 8]
    yMinorLoc := .fixed [0, 1]
    tickDir := .out
    xMinorStyled := true
    yMinorStyled := true
    xMinorFmtIsMajor := true
    yMinorFmtIsMajor := true }

/-- The state `add_range_frame` produces on `axesClipped` with no user
bounds. -/
def axesClippedFramed : AxesState :=
  { axesClippedTicked with
    frameOn := false
    xTickPos := .bottom
    yTickPos := .left
    artists := [{ color := "k", linewidth := 1,
                  xbounds := (2, 8), ybounds := (0, 1) }] }

/-! ## Helper lemmas -/

/-- Destructuring a successful run of `adjust_ticks_to_bounds` into its three
components and the two boundary computations. -/
theorem adjust_ticks_to_bounds_destruct {ticks : List ℚ} {minor_ticks : TickArg}
    {bounds : ℚ × ℚ} {pad : ℚ} {smin smax : Bool} {ib ob im : List ℚ}
    (h : adjust_ticks_to_bounds ticks minor_ticks bounds pad smin smax =
      some (ib, ob, im)) :
    ib = ticks.filter (inboundSel bounds pad) ∧
    (∃ lo hi, boundaryLow smin bounds.1 pad ib = some lo ∧
       boundaryHigh smax bounds.2 pad ib = some hi ∧ ob = lo ++ hi) ∧
    im = minorInbound minor_ticks bounds pad := by
  unfold adjust_ticks_to_bounds at h
  dsimp only at h
  split at h
  next lo hi hlo hhi =>
    simp only [Option.some.injEq, Prod.mk.injEq] at h
    obtain ⟨h1, h2, h3⟩ := h
    refine ⟨h1.symm, ⟨lo, hi, ?_, ?_, h2.symm⟩, h3.symm⟩
    · rw [← h1]; exact hlo
    · rw [← h1]; exact hhi
  next => exact absurd h (by simp)

end Etframes

namespace Etframes

/-- Characterization of a successful `boundaryLow`: the produced list is `[]`
or the singleton `[b0]`, and it contains `b0` exactly when `show_data_min`
holds and `b0 + pad` is below the smallest inbound tick. -/
theorem boundaryLow_char {smin : Bool} {b0 pad : ℚ} {ib lo : List ℚ}
    (h : boundaryLow smin b0 pad ib = some lo) :
    (lo = [] ∨ lo = [b0]) ∧
    (b0 ∈ lo ↔ smin = true ∧ ∃ m, ib.min? = some m ∧ b0 + pad < m) := by
  unfold boundaryLow at h
  cases smin with
  | false =>
    simp only [Option.some.injEq] at h
    subst h
    simp
  | true =>
    cases hm : ib.min? with
    | none => rw [hm] at h; exact absurd h (by simp)
    | some m =>
      rw [hm] at h
      simp only [Option.some.injEq] at h
      subst h
      by_cases hc : b0 + pad < m
      · simp [hc]
      · simp [hc]

/-- Characterization of a successful `boundaryHigh`: the produced list is `[]`
or the singleton `[b1]`, and it contains `b1` exactly when `show_data_max`
holds and `b1 - pad` is above the largest inbound tick. -/
theorem boundaryHigh_char {smax : Bool} {b1 pad : ℚ} {ib hi : List ℚ}
    (h : boundaryHigh smax b1 pad ib = some hi) :
    (hi = [] ∨ hi = [b1]) ∧
    (b1 ∈ hi ↔ smax = true ∧ ∃ m, ib.max? = some m ∧ m < b1 - pad) := by
  unfold boundaryHigh at h
  cases smax with
  | false =>
    simp only [Option.some.injEq] at h
    subst h
    simp
  | true =>
    cases hm : ib.max? with
    | none => rw [hm] at h; exact absurd h (by simp)
    | some m =>
      rw [hm] at h
      simp only [Option.some.injEq] at h
      subst h
      by_cases hc : b1 - pad > m
      · simp [hc]
      · simp [hc]

/-- C1: whenever `adjust_ticks_to_bounds` returns, the inbound major ticks
are exactly the input major ticks inside the padded interval, in their
original order, and likewise for an array of minor ticks; the selection
predicate is `bounds[0] - pad <= t <= bounds[1] + pad`. -/
theorem adjust_ticks_to_bounds_inbound (ticks minor : List ℚ)
    (bounds : ℚ × ℚ) (pad : ℚ) (smin smax : Bool) (ib ob im : List ℚ)
    (h : adjust_ticks_to_bounds ticks (.array minor) bounds pad smin smax =
      some (ib, ob, im)) :
    ib = ticks.filter (inboundSel bounds pad) ∧
    im = minor.filter (inboundSel bounds pad) ∧
    ∀ t, inboundSel bounds pad t = true ↔
      (bounds.1 - pad ≤ t ∧ t ≤ bounds.2 + pad) := by
  obtain ⟨h1, _, h3⟩ := adjust_ticks_to_bounds_destruct h
  refine ⟨h1, h3, fun t => ?_⟩
  simp [inboundSel, ge_iff_le, and_comm]

/-- C9: with a plain Python list of minor ticks, the caught `TypeError`
yields `[]` for the inbound minor ticks while the major-tick and
boundary-tick results (and the failure behaviour) are those of the array
case. -/
theorem adjust_ticks_to_bounds_plain_list (ticks l : List ℚ)
    (bounds : ℚ × ℚ) (pad : ℚ) (smin smax : Bool) :
    adjust_ticks_to_bounds ticks (.plainList l) bounds pad smin smax =
      (adjust_ticks_to_bounds ticks (.array l) bounds pad smin smax).map
        (fun r => (r.1, r.2.1, ([] : List ℚ))) := by
  unfold adjust_ticks_to_bounds
  cases hlo : boundaryLow smin bounds.1 pad (ticks.filter (inboundSel bounds pad)) <;>
    cases hhi : boundaryHigh smax bounds.2 pad (ticks.filter (inboundSel bounds pad)) <;>
      simp [hlo, hhi, minorInbound]

/-- C7: if some `show` flag is set and no major tick lies in the padded
interval, `adjust_ticks_to_bounds` fails (empty `min`/`max`); whenever some
major tick lies in the padded interval it returns normally. -/
theorem adjust_ticks_to_bounds_empty_selection (ticks : List ℚ)
    (minor_ticks : TickArg) (bounds : ℚ × ℚ) (pad : ℚ) (smin smax : Bool) :
    ((smin || smax) = true ∧ ticks.filter (inboundSel bounds pad) = [] →
      adjust_ticks_to_bounds ticks minor_ticks bounds pad smin smax = none) ∧
    (ticks.filter (inboundSel bounds pad) ≠ [] →
      (adjust_ticks_to_bounds ticks minor_ticks bounds pad smin smax).isSome =
        true) := by
  constructor
  · rintro ⟨hflag, hemp⟩
    unfold adjust_ticks_to_bounds
    have hmin : (ticks.filter (inboundSel bounds pad)).min? = none := by
      rw [hemp]; rfl
    have hmax : (ticks.filter (inboundSel bounds pad)).max? = none := by
      rw [hemp]; rfl
    cases smin with
    | true => simp [boundaryLow, hmin]
    | false =>
      cases smax with
      | true => simp [boundaryLow, boundaryHigh, hmin, hmax]
      | false => simp at hflag
  · intro hne
    unfold adjust_ticks_to_bounds
    obtain ⟨m, hm⟩ : ∃ m, (ticks.filter (inboundSel bounds pad)).min? = some m := by
      cases h : (ticks.filter (inboundSel bounds pad)).min? with
      | none => exact absurd (List.min?_eq_none_iff.mp h) hne
      | some m => exact ⟨m, rfl⟩
    obtain ⟨M, hM⟩ : ∃ M, (ticks.filter (inboundSel bounds pad)).max? = some M := by
      cases h : (ticks.filter (inboundSel bounds pad)).max? with
      | none => exact absurd (List.max?_eq_none_iff.mp h) hne
      | some M => exact ⟨M, rfl⟩
    cases smin <;> cases smax <;> simp [boundaryLow, boundaryHigh, hm, hM]

/-- C4: `make_range_frame` builds a line collection holding exactly the
horizontal segment `(x0,0)–(x1,0)` and the vertical segment `(0,y0)–(0,y1)`,
with the artist's line width and color, and its transform set to the host
axes' normalized coordinate transform. -/
theorem make_range_frame_segments (a : RangeFrameArtist) (t : Affine2) :
    (a.make_range_frame t).segments =
      [[(a.xbounds.1, 0), (a.xbounds.2, 0)],
       [(0, a.ybounds.1), (0, a.ybounds.2)]] ∧
    (a.make_range_frame t).linewidths = [a.linewidth] ∧
    (a.make_range_frame t).colors = [a.color] ∧
    (a.make_range_frame t).transform = t :=
  ⟨rfl, rfl, rfl, rfl⟩

end Etframes

namespace Etframes

/-- Every element of the inbound selection satisfies the padded interval
condition. -/
theorem mem_filter_inbound {ticks : List ℚ} {bounds : ℚ × ℚ} {pad x : ℚ}
    (hx : x ∈ ticks.filter (inboundSel bounds pad)) :
    bounds.1 - pad ≤ x ∧ x ≤ bounds.2 + pad := by
  have h := (List.mem_filter.mp hx).2
  simpa [inboundSel, ge_iff_le] using h

/-- On a normal return of `adjust_ticks_to_bounds`, every synthetic boundary
tick is one of the two interval endpoints. -/
theorem adjust_ticks_outbound_mem {ticks : List ℚ} {minor_ticks : TickArg}
    {bounds : ℚ × ℚ} {pad : ℚ} {smin smax : Bool} {ib ob im : List ℚ}
    (h : adjust_ticks_to_bounds ticks minor_ticks bounds pad smin smax =
      some (ib, ob, im)) :
    ∀ t ∈ ob, t = bounds.1 ∨ t = bounds.2 := by
  obtain ⟨-, ⟨lo, hi, hlo, hhi, hob⟩, -⟩ := adjust_ticks_to_bounds_destruct h
  obtain ⟨hloE, -⟩ := boundaryLow_char hlo
  obtain ⟨hhiE, -⟩ := boundaryHigh_char hhi
  intro t ht
  rw [hob] at ht
  rcases List.mem_append.mp ht with hL | hH
  · rcases hloE with hE | hE
    · rw [hE] at hL; simp at hL
    · rw [hE] at hL; simp only [List.mem_singleton] at hL; exact Or.inl hL
  · rcases hhiE with hF | hF
    · rw [hF] at hH; simp at hH
    · rw [hF] at hH; simp only [List.mem_singleton] at hH; exact Or.inr hH

/-- C2: on a normal return the synthetic boundary tick list contains
`bounds[0]` iff `show_data_min` holds and `bounds[0] + pad` is strictly below
the smallest inbound major tick, `bounds[1]` iff `show_data_max` holds and
`bounds[1] - pad` is strictly above the largest inbound major tick; it has
length at most 2, only the interval endpoints occur in it, and when both are
present `bounds[0]` precedes `bounds[1]`. -/
theorem adjust_ticks_to_bounds_boundary (ticks : List ℚ)
    (minor_ticks : TickArg) (bounds : ℚ × ℚ) (pad : ℚ) (smin smax : Bool)
    (ib ob im : List ℚ)
    (h : adjust_ticks_to_bounds ticks minor_ticks bounds pad smin smax =
      some (ib, ob, im)) :
    (bounds.1 ∈ ob ↔ smin = true ∧ ∃ m, ib.min? = some m ∧ bounds.1 + pad < m) ∧
    (bounds.2 ∈ ob ↔ smax = true ∧ ∃ M, ib.max? = some M ∧ M < bounds.2 - pad) ∧
    ob.length ≤ 2 ∧
    (∀ t ∈ ob, t = bounds.1 ∨ t = bounds.2) ∧
    (bounds.1 ∈ ob → bounds.2 ∈ ob → ob = [bounds.1, bounds.2]) := by
  obtain ⟨hib, ⟨lo, hi, hlo, hhi, hob⟩, -⟩ := adjust_ticks_to_bounds_destruct h
  obtain ⟨hloE, hloM⟩ := boundaryLow_char hlo
  obtain ⟨hhiE, hhiM⟩ := boundaryHigh_char hhi
  have hmemib : ∀ x ∈ ib, bounds.1 - pad ≤ x ∧ x ≤ bounds.2 + pad := by
    intro x hx
    rw [hib] at hx
    exact mem_filter_inbound hx
  -- the low condition forces bounds.1 < bounds.2
  have hlt1 : (∃ m, ib.min? = some m ∧ bounds.1 + pad < m) →
      bounds.1 < bounds.2 := by
    rintro ⟨m, hm, hmlt⟩
    have hmem : m ∈ ib := List.min?_mem (fun a b => min_choice a b) hm
    have := (hmemib m hmem).2
    linarith
  -- the high condition forces bounds.1 < bounds.2
  have hlt2 : (∃ M, ib.max? = some M ∧ M < bounds.2 - pad) →
      bounds.1 < bounds.2 := by
    rintro ⟨M, hM, hMlt⟩
    have hmem : M ∈ ib := List.max?_mem (fun a b => max_choice a b) hM
    have := (hmemib M hmem).1
    linarith
  have h1 : bounds.1 ∈ ob ↔
      smin = true ∧ ∃ m, ib.min? = some m ∧ bounds.1 + pad < m := by
    rw [hob, List.mem_append]
    constructor
    · rintro (hL | hH)
      · exact hloM.mp hL
      · rcases hhiE with hE | hE
        · rw [hE] at hH; simp at hH
        · rw [hE] at hH
          simp only [List.mem_singleton] at hH
          have hc2 := hhiM.mp (by rw [hE]; simp)
          exact absurd hH (ne_of_lt (hlt2 hc2.2))
    · intro hc
      exact Or.inl (hloM.mpr hc)
  have h2 : bounds.2 ∈ ob ↔
      smax = true ∧ ∃ M, ib.max? = some M ∧ M < bounds.2 - pad := by
    rw [hob, List.mem_append]
    constructor
    · rintro (hL | hH)
      · rcases hloE with hE | hE
        · rw [hE] at hL; simp at hL
        · rw [hE] at hL
          simp only [List.mem_singleton] at hL
          have hc1 := hloM.mp (by rw [hE]; simp)
          exact absurd hL.symm (ne_of_lt (hlt1 hc1.2))
      · exact hhiM.mp hH
    · intro hc
      exact Or.inr (hhiM.mpr hc)
  refine ⟨h1, h2, ?_, ?_, ?_⟩
  · rw [hob]
    rcases hloE with hE | hE <;> rcases hhiE with hF | hF <;>
      simp [hE, hF]
  · intro t ht
    rw [hob] at ht
    rcases List.mem_append.mp ht with hL | hH
    · rcases hloE with hE | hE
      · rw [hE] at hL; simp at hL
      · rw [hE] at hL; simp only [List.mem_singleton] at hL; exact Or.inl hL
    · rcases hhiE with hF | hF
      · rw [hF] at hH; simp at hH
      · rw [hF] at hH; simp only [List.mem_singleton] at hH; exact Or.inr hH
  · intro hb1 hb2
    have hc1 := h1.mp hb1
    have hc2 := h2.mp hb2
    have hL : bounds.1 ∈ lo := hloM.mpr hc1
    have hH : bounds.2 ∈ hi := hhiM.mpr hc2
    have hElo : lo = [bounds.1] := by
      rcases hloE with hE | hE
      · rw [hE] at hL; simp at hL
      · exact hE
    have hEhi : hi = [bounds.2] := by
      rcases hhiE with hF | hF
      · rw [hF] at hH; simp at hH
      · exact hF
    rw [hob, hElo, hEhi]
    rfl

end Etframes

namespace Etframes

/-- Witness for C1 at `ticks = [1,2,3]`, `minor = [3/2]`, `bounds = (1,2)`. -/
theorem adjust_ticks_to_bounds_inbound_witness :
    ([1, 2] : List ℚ) = ([1, 2, 3] : List ℚ).filter (inboundSel (1, 2) (1/100000)) ∧
    ([3/2] : List ℚ) = ([3/2] : List ℚ).filter (inboundSel (1, 2) (1/100000)) ∧
    (∀ t, inboundSel (1, 2) (1/100000) t = true ↔
      ((1 : ℚ) - 1/100000 ≤ t ∧ t ≤ 2 + 1/100000)) :=
  adjust_ticks_to_bounds_inbound [1, 2, 3] [3/2] (1, 2) (1/100000) true true
    [1, 2] [] [3/2]
    (by norm_num [adjust_ticks_to_bounds, minorInbound, List.filter, inboundSel,
      boundaryLow, boundaryHigh, List.min?, List.max?])

/-- Witness for C2 at `ticks = [5]`, `bounds = (2,8)`: both synthetic
boundary ticks are produced. -/
theorem adjust_ticks_to_bounds_boundary_witness :
    ((2 : ℚ) ∈ ([2, 8] : List ℚ) ↔
      true = true ∧ ∃ m, ([5] : List ℚ).min? = some m ∧ 2 + 1/100000 < m) ∧
    ((8 : ℚ) ∈ ([2, 8] : List ℚ) ↔
      true = true ∧ ∃ M, ([5] : List ℚ).max? = some M ∧ M < 8 - 1/100000) ∧
    ([2, 8] : List ℚ).length ≤ 2 ∧
    (∀ t ∈ ([2, 8] : List ℚ), t = 2 ∨ t = 8) ∧
    ((2 : ℚ) ∈ ([2, 8] : List ℚ) → (8 : ℚ) ∈ ([2, 8] : List ℚ) →
      ([2, 8] : List ℚ) = [2, 8]) :=
  adjust_ticks_to_bounds_boundary [5] (.array []) (2, 8) (1/100000) true true
    [5] [2, 8] []
    (by norm_num [adjust_ticks_to_bounds, minorInbound, List.filter, inboundSel,
      boundaryLow, boundaryHigh, List.min?, List.max?])

/-- Witness for C7: with `ticks = [5]` outside `bounds = (0,1)` the adjuster
fails; with `ticks = [0]` inside it returns normally. -/
theorem adjust_ticks_to_bounds_empty_selection_witness :
    adjust_ticks_to_bounds [5] (.array []) (0, 1) (1/100000) true true =
      none ∧
    (adjust_ticks_to_bounds [0] (.array []) (0, 1) (1/100000) true true).isSome =
      true := by
  constructor
  · exact (adjust_ticks_to_bounds_empty_selection [5] (.array []) (0, 1)
      (1/100000) true true).1
      ⟨rfl, by norm_num [List.filter, inboundSel]⟩
  · exact (adjust_ticks_to_bounds_empty_selection [0] (.array []) (0, 1)
      (1/100000) true true).2
      (by norm_num [List.filter, inboundSel])

end Etframes

namespace Etframes

/-- C5: `add_dot_dash_plot` installs a fixed minor locator at exactly the
given coordinates on each axis whose list is given, leaves the minor locator
of an axis whose list is `None` unchanged, and always turns the frame off. -/
theorem add_dot_dash_plot_locators (ax : AxesState) (xs ys : Option (List ℚ)) :
    (∀ l, xs = some l →
      (add_dot_dash_plot ax xs ys).xMinorLoc = Locator.fixed l) ∧
    (xs = none → (add_dot_dash_plot ax xs ys).xMinorLoc = ax.xMinorLoc) ∧
    (∀ l, ys = some l →
      (add_dot_dash_plot ax xs ys).yMinorLoc = Locator.fixed l) ∧
    (ys = none → (add_dot_dash_plot ax xs ys).yMinorLoc = ax.yMinorLoc) ∧
    (add_dot_dash_plot ax xs ys).frameOn = false := by
  cases xs <;> cases ys <;>
    simp [add_dot_dash_plot, cleanframe_and_ticks]

/-- Witness for C5 at `xs = some [1]`, `ys = none` on a concrete axes. -/
theorem add_dot_dash_plot_locators_witness :
    (add_dot_dash_plot axesTopTicks (some [1]) none).xMinorLoc =
      Locator.fixed [1] ∧
    (add_dot_dash_plot axesTopTicks (some [1]) none).yMinorLoc =
      axesTopTicks.yMinorLoc ∧
    (add_dot_dash_plot axesTopTicks (some [1]) none).frameOn = false := by
  obtain ⟨h1, -, -, h4, h5⟩ :=
    add_dot_dash_plot_locators axesTopTicks (some [1]) none
  exact ⟨h1 [1] rfl, h4 rfl, h5⟩

/-- Counterexample for C8 as stated: on axes drawing its x ticks on the top
side, `add_dot_dash_plot` also changes the tick side (to bottom/left via
`cleanframe_and_ticks`), not only the minor locators and the frame flag. -/
theorem add_dot_dash_plot_changes_tick_side :
    (add_dot_dash_plot axesTopTicks none none).xTickPos ≠
      axesTopTicks.xTickPos := by
  simp [add_dot_dash_plot, cleanframe_and_ticks, axesTopTicks]

/-- C8 (amended): `add_dot_dash_plot` changes exactly the minor locators (of
the axes whose coordinate lists are given), the frame flag, and the tick
sides; every other field — major ticks, axis and data limits, transforms,
and the artist list — is unchanged, and no range-frame artist or tick
adjustment is involved. -/
theorem add_dot_dash_plot_state (ax : AxesState) (xs ys : Option (List ℚ)) :
    add_dot_dash_plot ax xs ys =
      { ax with
        xMinorLoc := xs.elim ax.xMinorLoc Locator.fixed
        yMinorLoc := ys.elim ax.yMinorLoc Locator.fixed
        frameOn := false
        xTickPos := .bottom
        yTickPos := .left } := by
  cases xs <;> cases ys <;> rfl

/-- C10: `axis_data_bounds` takes the data bounds when no user bounds are
given, completes `None` user-bound components from the data bounds, and
clamps the result into the display limits. -/
theorem axis_data_bounds_spec (ub : Option (Option ℚ × Option ℚ))
    (d : ℚ × ℚ) (dmin dmax : Option ℚ) :
    (ub = none → axis_data_bounds ub d (dmin, dmax) =
      (dmin.elim d.1 (fun a => max d.1 a), dmax.elim d.2 (fun a => min d.2 a))) ∧
    (∀ u1 u2, ub = some (u1, u2) → axis_data_bounds ub d (dmin, dmax) =
      (dmin.elim (u1.getD d.1) (fun a => max (u1.getD d.1) a),
       dmax.elim (u2.getD d.2) (fun a => min (u2.getD d.2) a))) ∧
    (∀ m, dmin = some m → m ≤ (axis_data_bounds ub d (dmin, dmax)).1) ∧
    (∀ M, dmax = some M → (axis_data_bounds ub d (dmin, dmax)).2 ≤ M) := by
  refine ⟨?_, ?_, ?_, ?_⟩
  · rintro rfl
    cases dmin <;> cases dmax <;> rfl
  · rintro u1 u2 rfl
    cases dmin <;> cases dmax <;> rfl
  · rintro m rfl
    cases ub with
    | none => cases dmax <;> exact le_max_right _ _
    | some uv =>
      obtain ⟨u1, u2⟩ := uv
      cases dmax <;> exact le_max_right _ _
  · rintro M rfl
    cases ub with
    | none => cases dmin <;> exact min_le_right _ _
    | some uv =>
      obtain ⟨u1, u2⟩ := uv
      cases dmin <;> exact min_le_right _ _

/-- Witness for C10: no user bounds, data bounds `(1, 10)`, display limits
`(2, 8)`: the result is the clamped pair `(2, 8)` and respects the display
minimum. -/
theorem axis_data_bounds_spec_witness :
    axis_data_bounds none (1, 10) (some 2, some 8) = (2, 8) ∧
    (2 : ℚ) ≤ (axis_data_bounds none (1, 10) (some 2, some 8)).1 := by
  obtain ⟨h1, -, h3, -⟩ :=
    axis_data_bounds_spec none ((1 : ℚ), (10 : ℚ)) (some 2) (some 8)
  constructor
  · rw [h1 rfl]
    norm_num
  · exact h3 2 rfl

end Etframes

namespace Etframes

/-- `add_range_ticks` never touches the artist list. -/
theorem add_range_ticks_artists {ax : AxesState} {xb yb : ℚ × ℚ}
    {sxm sxM sym syM : Bool} {ax' : AxesState}
    (h : add_range_ticks ax xb yb sxm sxM sym syM = some ax') :
    ax'.artists = ax.artists := by
  unfold add_range_ticks at h
  dsimp only at h
  split at h
  next => 
    simp only [Option.some.injEq] at h
    subst h
    by_cases h1 : (sxm || sxM) = true <;> by_cases h2 : (sym || syM) = true <;>
      simp [h1, h2, set_tick_for_data_bounds]
  next => exact absurd h (by simp)

/-- C6: on a normal return of `add_range_ticks`, each axis's major ticks are
exactly the inbound original major ticks; its minor ticks are the synthetic
boundary ticks (each of which is an interval endpoint) when a show flag is
set, and the inbound original minor ticks otherwise. -/
theorem add_range_ticks_tick_assignment (ax : AxesState) (xb yb : ℚ × ℚ)
    (sxm sxM sym syM : Bool) (ax' : AxesState) (xt xbt xmt yt ybt ymt : List ℚ)
    (h : add_range_ticks ax xb yb sxm sxM sym syM = some ax')
    (hx : adjust_ticks_to_bounds ax.xMajorTicks (.array ax.xMinorLoc.ticks) xb
      defaultPad sxm sxM = some (xt, xbt, xmt))
    (hy : adjust_ticks_to_bounds ax.yMajorTicks (.array ax.yMinorLoc.ticks) yb
      defaultPad sym syM = some (yt, ybt, ymt)) :
    ax'.xMajorTicks = xt ∧
    ax'.yMajorTicks = yt ∧
    xt = ax.xMajorTicks.filter (inboundSel xb defaultPad) ∧
    yt = ax.yMajorTicks.filter (inboundSel yb defaultPad) ∧
    ax'.xMinorLoc = Locator.fixed (if (sxm || sxM) = true then xbt else xmt) ∧
    ax'.yMinorLoc = Locator.fixed (if (sym || syM) = true then ybt else ymt) ∧
    xmt = ax.xMinorLoc.ticks.filter (inboundSel xb defaultPad) ∧
    ymt = ax.yMinorLoc.ticks.filter (inboundSel yb defaultPad) ∧
    (∀ t ∈ xbt, t = xb.1 ∨ t = xb.2) ∧
    (∀ t ∈ ybt, t = yb.1 ∨ t = yb.2) := by
  obtain ⟨hxt, -, hxm⟩ := adjust_ticks_to_bounds_destruct hx
  obtain ⟨hyt, -, hym⟩ := adjust_ticks_to_bounds_destruct hy
  have hxb := adjust_ticks_outbound_mem hx
  have hyb := adjust_ticks_outbound_mem hy
  unfold add_range_ticks at h
  dsimp only at h
  rw [hx, hy] at h
  simp only [Option.some.injEq] at h
  subst h
  refine ⟨?_, ?_, hxt, hyt, ?_, ?_,
    by simpa [minorInbound] using hxm, by simpa [minorInbound] using hym,
    hxb, hyb⟩ <;>
    by_cases h1 : (sxm || sxM) = true <;> by_cases h2 : (sym || syM) = true <;>
      simp [h1, h2, set_tick_for_data_bounds]

end Etframes

namespace Etframes

/-- Witness for C6 on `axesClipped` with bounds `(2,8)`/`(0,1)` and all show
flags set. -/
theorem add_range_ticks_tick_assignment_witness :
    axesClippedTicked.xMajorTicks = [5] ∧
    axesClippedTicked.yMajorTicks = [1/2] ∧
    ([5] : List ℚ) = axesClipped.xMajorTicks.filter (inboundSel (2, 8) defaultPad) ∧
    ([1/2] : List ℚ) = axesClipped.yMajorTicks.filter (inboundSel (0, 1) defaultPad) ∧
    axesClippedTicked.xMinorLoc =
      Locator.fixed (if (true || true) = true then [2, 8] else []) ∧
    axesClippedTicked.yMinorLoc =
      Locator.fixed (if (true || true) = true then [0, 1] else []) ∧
    ([] : List ℚ) = axesClipped.xMinorLoc.ticks.filter (inboundSel (2, 8) defaultPad) ∧
    ([] : List ℚ) = axesClipped.yMinorLoc.ticks.filter (inboundSel (0, 1) defaultPad) ∧
    (∀ t ∈ ([2, 8] : List ℚ), t = 2 ∨ t = 8) ∧
    (∀ t ∈ ([0, 1] : List ℚ), t = 0 ∨ t = 1) := by
  have hXadj : adjust_ticks_to_bounds axesClipped.xMajorTicks
      (.array axesClipped.xMinorLoc.ticks) (2, 8) defaultPad true true =
      some ([5], [2, 8], []) := by
    norm_num [adjust_ticks_to_bounds, minorInbound, boundaryLow, boundaryHigh,
      List.filter, inboundSel, List.min?, List.max?, axesClipped, Locator.ticks,
      defaultPad]
  have hYadj : adjust_ticks_to_bounds axesClipped.yMajorTicks
      (.array axesClipped.yMinorLoc.ticks) (0, 1) defaultPad true true =
      some ([1/2], [0, 1], []) := by
    norm_num [adjust_ticks_to_bounds, minorInbound, boundaryLow, boundaryHigh,
      List.filter, inboundSel, List.min?, List.max?, axesClipped, Locator.ticks,
      defaultPad]
  have hEval : add_range_ticks axesClipped (2, 8) (0, 1) true true true true =
      some axesClippedTicked := by
    unfold add_range_ticks
    dsimp only
    rw [hXadj, hYadj]
    norm_num [set_tick_for_data_bounds, axesClippedTicked, axesClipped]
  exact add_range_ticks_tick_assignment axesClipped (2, 8) (0, 1)
    true true true true axesClippedTicked [5] [2, 8] [] [1/2] [0, 1] []
    hEval hXadj hYadj

end Etframes

namespace Etframes

/-- Counterexample for C3 as stated: on `axesClipped`, whose display limits
`(2, 8)` are narrower than its x data limits `(0, 10)`, `add_range_frame`
with `xbounds=None`/`ybounds=None` hands the artist the clamped bounds
`(2, 8)`, not the `dataLim` extremes (which the identity data-to-axes
transform would map to `(0, 10)`). -/
theorem add_range_frame_dataLim_counterexample :
    (add_range_frame axesClipped "k" 1 none none true true true true).map
      (fun a => a.artists) =
      some [{ color := "k", linewidth := 1,
              xbounds := (2, 8), ybounds := (0, 1) }] ∧
    ¬ (((2 : ℚ), (8 : ℚ)) = axesClipped.dataLimX) := by
  constructor
  · have hEval : add_range_frame axesClipped "k" 1 none none true true true true =
        some axesClippedFramed := by
      norm_num [add_range_frame, axes_data_bound, axis_data_bounds,
        Affine2.comp, Affine2.inverted, Affine2.apply, cleanframe_and_ticks,
        add_range_ticks, adjust_ticks_to_bounds, minorInbound, boundaryLow,
        boundaryHigh, List.filter, inboundSel, List.min?, List.max?,
        set_tick_for_data_bounds, defaultPad, Locator.ticks,
        axesClipped, axesClippedTicked, axesClippedFramed]
    rw [hEval]
    norm_num [axesClippedFramed, axesClippedTicked, axesClipped]
  · norm_num [axesClipped]

/-- C3 (amended): with `xbounds=None`/`ybounds=None`, the bounds
`add_range_frame` uses are the `dataLim` extremes clamped into the display
limits, and the segment endpoints handed to the `RangeFrameArtist` are those
clamped values mapped by the data-to-axes transform
(`transData + transAxes.inverted()`). -/
theorem add_range_frame_clamped (ax : AxesState) (c : String) (lw : ℚ)
    (f1 f2 f3 f4 : Bool) (ax' : AxesState)
    (h : add_range_frame ax c lw none none f1 f2 f3 f4 = some ax') :
    ax'.artists = ax.artists ++
      [{ color := c, linewidth := lw,
         xbounds :=
           (((ax.transData.comp ax.transAxes.inverted).apply
               (max ax.dataLimX.1 ax.xlim.1, max ax.dataLimY.1 ax.ylim.1)).1,
            ((ax.transData.comp ax.transAxes.inverted).apply
               (min ax.dataLimX.2 ax.xlim.2, min ax.dataLimY.2 ax.ylim.2)).1),
         ybounds :=
           (((ax.transData.comp ax.transAxes.inverted).apply
               (max ax.dataLimX.1 ax.xlim.1, max ax.dataLimY.1 ax.ylim.1)).2,
            ((ax.transData.comp ax.transAxes.inverted).apply
               (min ax.dataLimX.2 ax.xlim.2, min ax.dataLimY.2 ax.ylim.2)).2) }] := by
  unfold add_range_frame axes_data_bound axis_data_bounds at h
  dsimp only at h
  have hart := add_range_ticks_artists h
  simpa [cleanframe_and_ticks] using hart

/-- Witness for C3 (amended) on `axesClipped`. -/
theorem add_range_frame_clamped_witness :
    ∃ ax', add_range_frame axesClipped "k" 1 none none true true true true =
        some ax' ∧
      ax'.artists = axesClipped.artists ++
        [{ color := "k", linewidth := 1,
           xbounds :=
             (((axesClipped.transData.comp axesClipped.transAxes.inverted).apply
                 (max axesClipped.dataLimX.1 axesClipped.xlim.1,
                  max axesClipped.dataLimY.1 axesClipped.ylim.1)).1,
              ((axesClipped.transData.comp axesClipped.transAxes.inverted).apply
                 (min axesClipped.dataLimX.2 axesClipped.xlim.2,
                  min axesClipped.dataLimY.2 axesClipped.ylim.2)).1),
           ybounds :=
             (((axesClipped.transData.comp axesClipped.transAxes.inverted).apply
                 (max axesClipped.dataLimX.1 axesClipped.xlim.1,
                  max axesClipped.dataLimY.1 axesClipped.ylim.1)).2,
              ((axesClipped.transData.comp axesClipped.transAxes.inverted).apply
                 (min axesClipped.dataLimX.2 axesClipped.xlim.2,
                  min axesClipped.dataLimY.2 axesClipped.ylim.2)).2) }] := by
  have hEval : add_range_frame axesClipped "k" 1 none none true true true true =
      some axesClippedFramed := by
    norm_num [add_range_frame, axes_data_bound, axis_data_bounds,
      Affine2.comp, Affine2.inverted, Affine2.apply, cleanframe_and_ticks,
      add_range_ticks, adjust_ticks_to_bounds, minorInbound, boundaryLow,
      boundaryHigh, List.filter, inboundSel, List.min?, List.max?,
      set_tick_for_data_bounds, defaultPad, Locator.ticks,
      axesClipped, axesClippedTicked, axesClippedFramed]
  exact ⟨axesClippedFramed, hEval,
    add_range_frame_clamped axesClipped "k" 1 true true true true
      axesClippedFramed hEval⟩

end Etframes
